import Mathlib

/-!
Verification of the capsule CoreDNS plugin (controller.go, handler.go).

The controller side models the Kubernetes informer caches exactly as the
source wires them: each reverse-IP informer owns a store of keyed objects
(keys produced by the meta-namespace key function, `namespace ++ "/" ++ name`
for namespaced objects) and the index registered by `AddIndexers` in
`newDNSController` — `podIPs` on the pod informer, `clusterIPs` on the
service informer, `name` on the namespace informer.  `ByIndex` fails when
the supplied index name is not registered, mirroring the client-go
thread-safe store.  Go panics (failed single-value type assertions) are
modelled with an explicit `GoVal.panicked` value.

The handler side models `ServeDNS` and `GetDestIp` over an environment
carrying the results of the external collaborators (zone matching, the
kubernetes plugin record lookups, and the controller decision), and
records whether and with which arguments `TenantAuthorized` was invoked.
-/

namespace CapsuleDns

/-- Index and label-key constants from controller.go. -/
def PodIPIndex : String := "podIPs"

/-- Registered index name on the service informer. -/
def SvcClusterIPIndex : String := "clusterIPs"

/-- Registered index name on the namespace informer. -/
def NsIndex : String := "name"

/-- The namespace label carrying the owning tenant. -/
def CapsuleTenantLabel : String := "capsule.clastix.io/tenant"

/-- A pod as seen by the pod informer: identity, namespace, labels and the
`Status.PodIPs` used by the registered `podIPs` index function. -/
structure PodObj where
  name : String
  nsName : String
  labels : List (String × String)
  podIPs : List String
deriving DecidableEq

/-- A service as seen by the service informer: identity, namespace, labels
and the `Spec.ClusterIPs` used by the registered `clusterIPs` index. -/
structure SvcObj where
  name : String
  nsName : String
  labels : List (String × String)
  clusterIPs : List String
deriving DecidableEq

/-- A namespace object: name and labels (the tenant label lives here). -/
structure NsObj where
  name : String
  labels : List (String × String)
deriving DecidableEq

/-- The dynamic type of an object stored in a reverse-IP informer (the Go
code stores `*v1.Pod` and `*v1.Service` values behind `any`). -/
inductive AnyObj where
  | pod (p : PodObj)
  | svc (s : SvcObj)
deriving DecidableEq

/-- A bare `*metav1.ObjectMeta` value, the type `getObjectByIP` asserts the
stored object to. -/
structure ObjMeta where
  name : String
  nsName : String
deriving DecidableEq

/-- Result of running a piece of Go code that may panic: either a value or
a runtime panic (e.g. a failed single-value type assertion). -/
inductive GoVal (α : Type) where
  | ok (a : α)
  | panicked
deriving DecidableEq

/-- Operator in a Kubernetes label-selector requirement. -/
inductive SelOp where
  | selIn
  | selNotIn
  | selExists
  | selDoesNotExist
deriving DecidableEq

/-- One requirement of a parsed label selector. -/
structure SelReq where
  key : String
  op : SelOp
  vals : List String
deriving DecidableEq

/-- `metav1.LabelSelector`: match-labels map plus match-expressions. -/
structure LabelSelector where
  matchLabels : List (String × String)
  matchExprs : List SelReq
deriving DecidableEq

/-- Value-count validation performed by `metav1.LabelSelectorAsSelector`:
`In`/`NotIn` need at least one value, `Exists`/`DoesNotExist` need none. -/
def reqValid (r : SelReq) : Bool :=
  match r.op with
  | .selIn => !r.vals.isEmpty
  | .selNotIn => !r.vals.isEmpty
  | .selExists => r.vals.isEmpty
  | .selDoesNotExist => r.vals.isEmpty

/-- `metav1.LabelSelectorAsSelector`: turns each match-label into an `In`
requirement with a single value, appends the match-expressions, and errors
when a requirement fails validation. -/
def labelSelectorAsSelector (ls : LabelSelector) : Except Unit (List SelReq) :=
  if ls.matchExprs.all reqValid then
    Except.ok (ls.matchLabels.map (fun kv => SelReq.mk kv.1 SelOp.selIn [kv.2]) ++ ls.matchExprs)
  else
    Except.error ()

/-- `labels.Requirement.Matches` from the Kubernetes labels package:
`NotIn` and `DoesNotExist` are satisfied by an absent key. -/
def reqMatches (lbls : List (String × String)) (r : SelReq) : Bool :=
  match r.op with
  | .selIn =>
    match lbls.lookup r.key with
    | some v => r.vals.contains v
    | none => false
  | .selNotIn =>
    match lbls.lookup r.key with
    | some v => !r.vals.contains v
    | none => true
  | .selExists => (lbls.lookup r.key).isSome
  | .selDoesNotExist => (lbls.lookup r.key).isNone

/-- `selector.Matches(labels.Set(...))`: every requirement must hold. -/
def selMatches (reqs : List SelReq) (lbls : List (String × String)) : Bool :=
  reqs.all (reqMatches lbls)

/-- The plugin configuration carried by the `Capsule` handler struct: the
two optional whitelist selectors parsed from the Corefile (`labels` and
`namespace_labels`).  The pipeline fields (`Next`, `kubernetesHandler`) are
modelled separately in the handler environment. -/
structure Capsule where
  labelSelector : Option LabelSelector
  namespaceLabelSelector : Option LabelSelector
deriving DecidableEq

/-- The controller state: one keyed store per informer created in
`newDNSController`, plus the sync flag. -/
structure dnsController where
  podStore : List (String × PodObj)
  svcStore : List (String × SvcObj)
  nsStore : List (String × NsObj)
  hasSynced : Bool
deriving DecidableEq

/-- `GetIndexer().ListKeys()`: the keys of the objects currently stored. -/
def listKeys {α : Type} (st : List (String × α)) : List String :=
  st.map Prod.fst

/-- `ByIndex` on the pod informer.  The only index registered by
controller.go is `podIPs` (mapping a pod to its `Status.PodIPs`); any other
index name yields the client-go "index does not exist" error. -/
def byIndexPods (st : List (String × PodObj)) (name ip : String) :
    Except Unit (List AnyObj) :=
  if name == PodIPIndex then
    Except.ok ((st.filter (fun kv => kv.2.podIPs.contains ip)).map
      (fun kv => AnyObj.pod kv.2))
  else
    Except.error ()

/-- `ByIndex` on the service informer; only `clusterIPs` is registered. -/
def byIndexSvcs (st : List (String × SvcObj)) (name ip : String) :
    Except Unit (List AnyObj) :=
  if name == SvcClusterIPIndex then
    Except.ok ((st.filter (fun kv => kv.2.clusterIPs.contains ip)).map
      (fun kv => AnyObj.svc kv.2))
  else
    Except.error ()

/-- The `name` index function registered on the namespace informer:
empty-named namespaces produce no index entry. -/
def nsIndexVals (n : NsObj) : List String :=
  if n.name == "" then [] else [n.name]

/-- `ByIndex` on the namespace informer; only `name` is registered. -/
def byIndexNs (st : List (String × NsObj)) (name val : String) :
    Except Unit (List NsObj) :=
  if name == NsIndex then
    Except.ok ((st.filter (fun kv => (nsIndexVals kv.2).contains val)).map Prod.snd)
  else
    Except.error ()

/-- The inner loop of `getObjectByIP` over one informer: for each stored
key, call `ByIndex key ip`; `continue` on error or empty result, otherwise
process `objs[0]`. -/
def probeKeys (byIndex : String → Except Unit (List AnyObj)) :
    List String → Option AnyObj
  | [] => none
  | k :: ks =>
    match byIndex k with
    | .error _ => probeKeys byIndex ks
    | .ok [] => probeKeys byIndex ks
    | .ok (o :: _) => some o

/-- The single-value type assertion `objs[0].(*metav1.ObjectMeta)` in
`getObjectByIP`: it panics unless the dynamic type is exactly
`*metav1.ObjectMeta`, and the reverse-IP stores only ever hold `*v1.Pod`
and `*v1.Service` values, so every hit panics. -/
def asObjectMeta : AnyObj → GoVal ObjMeta
  | .pod _ => GoVal.panicked
  | .svc _ => GoVal.panicked

/-- `getNSByName`: `ByIndex(NsIndex, name)` on the namespace informer,
returning `(nil, err)` on error or empty result and the first namespace
otherwise (second component is the Go error, as a Bool). -/
def getNSByName (c : dnsController) (name : String) : Option NsObj × Bool :=
  match byIndexNs c.nsStore NsIndex name with
  | .error _ => (none, true)
  | .ok [] => (none, false)
  | .ok (n :: _) => (some n, false)

/-- `getObjectByIP`: iterate the reverse-IP informers (pods, then
services); within each, iterate the stored keys and call `ByIndex key ip`.
On a hit, assert `objs[0]` to `*metav1.ObjectMeta` (which panics, see
`asObjectMeta`) and resolve the owning namespace; if every probe misses,
return `(nil, nil, nil)`.  Result triple is (namespace, stored object,
error). -/
def getObjectByIP (c : dnsController) (ip : String) :
    GoVal (Option NsObj × Option AnyObj × Bool) :=
  match probeKeys (fun k => byIndexPods c.podStore k ip) (listKeys c.podStore) with
  | some o =>
    match asObjectMeta o with
    | .panicked => GoVal.panicked
    | .ok m =>
      match getNSByName c m.nsName with
      | (ns, err) => GoVal.ok (ns, some o, err)
  | none =>
    match probeKeys (fun k => byIndexSvcs c.svcStore k ip) (listKeys c.svcStore) with
    | some o =>
      match asObjectMeta o with
      | .panicked => GoVal.panicked
      | .ok m =>
        match getNSByName c m.nsName with
        | (ns, err) => GoVal.ok (ns, some o, err)
    | none => GoVal.ok (none, none, false)

/-- The service-whitelist block of `TenantAuthorized`: the two-value type
assertion `obj.(*v1.Service)` succeeds only for a service; the selector is
then converted and matched against the service labels. -/
def svcWhitelistMatch (obj : Option AnyObj) (h : Capsule) : Bool :=
  match obj with
  | some (AnyObj.svc s) =>
    match h.labelSelector with
    | some ls =>
      match labelSelectorAsSelector ls with
      | .ok sel => selMatches sel s.labels
      | .error _ => false
    | none => false
  | _ => false

/-- The namespace-whitelist block of `TenantAuthorized`: the
`namespace_labels` selector matched against the destination namespace. -/
def nsWhitelistMatch (nt : NsObj) (h : Capsule) : Bool :=
  match h.namespaceLabelSelector with
  | some nls =>
    match labelSelectorAsSelector nls with
    | .ok sel => selMatches sel nt.labels
    | .error _ => false
  | none => false

/-- The decision portion of `TenantAuthorized` (controller.go lines
139-178), with the two `getObjectByIP` results supplied as inputs:
fail-open on source miss or untenanted source, fail-open on destination
miss, service whitelist, namespace whitelist, deny on untenanted
destination, and finally tenant equality. -/
def tenantDecision (nsFrom : Option NsObj) (errFrom : Bool)
    (nsTo : Option NsObj) (obj : Option AnyObj) (errTo : Bool)
    (h : Capsule) : Bool :=
  if errFrom then true else
  match nsFrom with
  | none => true
  | some nf =>
    match nf.labels.lookup CapsuleTenantLabel with
    | none => true
    | some tenantFrom =>
      if errTo then true else
      match nsTo with
      | none => true
      | some nt =>
        if svcWhitelistMatch obj h then true
        else if nsWhitelistMatch nt h then true
        else
          match nt.labels.lookup CapsuleTenantLabel with
          | none => false
          | some tenantTo => tenantFrom == tenantTo

/-- `TenantAuthorized`, mirroring the source control flow: the destination
lookup only runs after the source guards pass, and a panic in either
lookup propagates. -/
def TenantAuthorized (c : dnsController) (fromIp toIp : String) (h : Capsule) :
    GoVal Bool :=
  match getObjectByIP c fromIp with
  | .panicked => GoVal.panicked
  | .ok (nsFrom, _, errFrom) =>
    if errFrom then GoVal.ok true else
    match nsFrom with
    | none => GoVal.ok true
    | some nf =>
      match nf.labels.lookup CapsuleTenantLabel with
      | none => GoVal.ok true
      | some tenantFrom =>
        match getObjectByIP c toIp with
        | .panicked => GoVal.panicked
        | .ok (nsTo, obj, errTo) =>
          if errTo then GoVal.ok true else
          match nsTo with
          | none => GoVal.ok true
          | some nt =>
            if svcWhitelistMatch obj h then GoVal.ok true
            else if nsWhitelistMatch nt h then GoVal.ok true
            else
              match nt.labels.lookup CapsuleTenantLabel with
              | none => GoVal.ok false
              | some tenantTo => GoVal.ok (tenantFrom == tenantTo)

/-- The three informers built by `newDNSController`. -/
inductive InformerKind where
  | pods
  | services
  | namespaces
deriving DecidableEq

/-- `reverseIpInformers` as assembled in `newDNSController`: the pod
informer is appended first, the service informer second; the namespace
informer is kept in the separate `nsInformer` field. -/
def reverseIpInformers : List InformerKind :=
  [InformerKind.pods, InformerKind.services]

/-- The field holding the namespace informer. -/
def nsInformer : InformerKind := InformerKind.namespaces

/-- The informers `Start` launches (`go ctrl.Run(d.stopCh)`): exactly the
entries of `reverseIpInformers`. -/
def StartRuns : List InformerKind := reverseIpInformers

/-- The sync gate computed by `Start`: `hasSynced` becomes the result of
`cache.WaitForCacheSync` over the `HasSynced` functions collected in the
same loop, i.e. the conjunction of the sync outcomes of the informers in
`StartRuns` only. -/
def StartHasSynced (synced : InformerKind → Bool) : Bool :=
  StartRuns.all synced

/-- DNS rcode for a successful, possibly empty, answer. -/
def RcodeSuccess : Nat := 0

/-- DNS rcode SERVFAIL. -/
def RcodeServerFailure : Nat := 2

/-- DNS record type A. -/
def TypeA : Nat := 1

/-- DNS record type AAAA. -/
def TypeAAAA : Nat := 28

/-- Where `ServeDNS` hands the query off.  `nextOrFailureKube` is the
zone-miss path (`plugin.NextOrFailure` on the kubernetes handler chain);
`backendError rcode` is `plugin.BackendError`, which writes a response
with the given rcode and no answer records; `nextHandler` is
`h.Next.ServeDNS`, passing the query through unmodified. -/
inductive Outcome where
  | nextOrFailureKube
  | backendError (rcode : Nat)
  | nextHandler
deriving DecidableEq

/-- The collaborators `ServeDNS` consults, per query: whether the qname
matches a managed zone, the querier source address (`state.IP()`), the
controller sync gate, the query type, the kubernetes plugin lookups
(`plugin.A` / `plugin.AAAA` as error-or-address-list), and the controller
decision. -/
structure ServeEnv where
  zoneMatches : Bool
  sourceIp : String
  hasSynced : Bool
  qtype : Nat
  aRecords : Except Unit (List String)
  aaaaRecords : Except Unit (List String)
  authorized : String → String → Bool

/-- Result of a `ServeDNS` run: the outcome, plus the arguments passed to
`TenantAuthorized` when it was invoked. -/
structure ServeResult where
  outcome : Outcome
  authCall : Option (String × String)
deriving DecidableEq

/-- `GetDestIp`: for an A (resp. AAAA) query, ask the kubernetes plugin for
records; propagate its error, error on an empty record set, and otherwise
return the first record address.  Any other query type returns the
`destIp` argument unchanged. -/
def GetDestIp (e : ServeEnv) (destIp : String) : Except Unit String :=
  if e.qtype == TypeA then
    match e.aRecords with
    | .error _ => Except.error ()
    | .ok [] => Except.error ()
    | .ok (r :: _) => Except.ok r
  else if e.qtype == TypeAAAA then
    match e.aaaaRecords with
    | .error _ => Except.error ()
    | .ok [] => Except.error ()
    | .ok (r :: _) => Except.ok r
  else
    Except.ok destIp

/-- `ServeDNS`: zone miss goes down the kubernetes handler chain;
otherwise `destIp` is initialised to the querier address, an unsynced
controller yields SERVFAIL, a failed `GetDestIp` falls through to the next
handler, and an unauthorized query is answered with `BackendError` and
`RcodeSuccess`. -/
def ServeDNS (e : ServeEnv) : ServeResult :=
  if !e.zoneMatches then
    ServeResult.mk Outcome.nextOrFailureKube none
  else
    let destIp := e.sourceIp
    if !e.hasSynced then
      ServeResult.mk (Outcome.backendError RcodeServerFailure) none
    else
      match GetDestIp e destIp with
      | .error _ => ServeResult.mk Outcome.nextHandler none
      | .ok d =>
        if !(e.authorized e.sourceIp d) then
          ServeResult.mk (Outcome.backendError RcodeSuccess) (some (e.sourceIp, d))
        else
          ServeResult.mk Outcome.nextHandler (some (e.sourceIp, d))

/-- A string contains a slash.  Store keys of namespaced objects produced
by the meta-namespace key function always do. -/
def hasSlash (s : String) : Bool := s.toList.contains '/'

/-- Namespace of tenant a, carrying the tenant label. -/
def nsA : NsObj := NsObj.mk "tenant-a-ns" [(CapsuleTenantLabel, "tenant-a")]

/-- Namespace of tenant b, carrying a different tenant label value. -/
def nsB : NsObj := NsObj.mk "tenant-b-ns" [(CapsuleTenantLabel, "tenant-b")]

/-- A namespace with no tenant label. -/
def nsNoTenant : NsObj := NsObj.mk "shared-ns" [("team", "platform")]

/-- A client pod in tenant a's namespace. -/
def podA : PodObj := PodObj.mk "client-pod" "tenant-a-ns" [] ["10.244.1.10"]

/-- A service in tenant b's namespace, not whitelisted. -/
def svcB : SvcObj := SvcObj.mk "isolated-service" "tenant-b-ns" [] ["10.96.0.50"]

/-- A service in the untenanted namespace. -/
def svcShared : SvcObj := SvcObj.mk "plain-svc" "shared-ns" [] ["10.96.0.60"]

/-- Empty plugin configuration: no whitelist selectors. -/
def noSelectors : Capsule := Capsule.mk none none

/-- Controller state after syncing a cluster with a tenant-a client pod
and a tenant-b service; store keys are the meta-namespace keys. -/
def crossTenantState : dnsController :=
  dnsController.mk
    [("tenant-a-ns/client-pod", podA)]
    [("tenant-b-ns/isolated-service", svcB)]
    [("tenant-a-ns", nsA), ("tenant-b-ns", nsB)]
    true

/-- Controller state with a tenant-a client pod and a service living in a
known namespace that has no tenant label. -/
def untenantedDestState : dnsController :=
  dnsController.mk
    [("tenant-a-ns/client-pod", podA)]
    [("shared-ns/plain-svc", svcShared)]
    [("tenant-a-ns", nsA), ("shared-ns", nsNoTenant)]
    true

/-- The service whitelist selector used in the examples. -/
def wlSelector : LabelSelector :=
  LabelSelector.mk [("capsule.io/expose-dns", "true")] []

/-- Configuration with a service whitelist and no namespace whitelist. -/
def wlCfg : Capsule := Capsule.mk (some wlSelector) none

/-- A pod carrying the whitelist label. -/
def exposedPod : PodObj :=
  PodObj.mk "exposed-pod" "tenant-b-ns" [("capsule.io/expose-dns", "true")] ["10.244.2.20"]

/-- A service carrying the whitelist label. -/
def exposedSvc : SvcObj :=
  SvcObj.mk "shared-svc" "tenant-b-ns" [("capsule.io/expose-dns", "true")] ["10.96.0.77"]

/-- Handler environment: zone matches, controller not yet synced. -/
def envUnsynced : ServeEnv :=
  ServeEnv.mk true "10.244.1.10" false TypeA (Except.ok ["10.96.0.50"])
    (Except.ok []) (fun _ _ => true)

/-- Handler environment: synced, non-A/AAAA query, controller denies. -/
def envDeny : ServeEnv :=
  ServeEnv.mk true "10.244.1.10" true 16 (Except.ok []) (Except.ok [])
    (fun _ _ => false)

/-- Handler environment: synced A query whose kubernetes lookup errors. -/
def envResolverFail : ServeEnv :=
  ServeEnv.mk true "10.244.1.10" true TypeA (Except.error ())
    (Except.ok []) (fun _ _ => true)

/-- A controller state used to witness the fail-open theorems: it stores a
pod and a service, neither of which carries the probed address. -/
def witnessState : dnsController :=
  dnsController.mk
    [("tenant-a-ns/client-pod", podA)]
    [("tenant-b-ns/isolated-service", svcB)]
    []
    true

/-- A key containing a slash is not beq-equal to a slash-free name. -/
theorem hasSlash_beq_false (n : String) (hn : hasSlash n = false) (k : String)
    (hk : hasSlash k = true) : (k == n) = false := by
  rcases eq_or_ne k n with rfl | hne
  · rw [hk] at hn
    exact absurd hn (by simp)
  · exact beq_eq_false_iff_ne.mpr hne

/-- The key loop of `getObjectByIP` finds nothing when every `ByIndex`
probe errors or comes back empty. -/
theorem probeKeys_none (byIndex : String → Except Unit (List AnyObj))
    (ks : List String)
    (h : ∀ k ∈ ks, byIndex k = Except.error () ∨ byIndex k = Except.ok []) :
    probeKeys byIndex ks = none := by
  induction ks with
  | nil => rfl
  | cons k ks ih =>
    have hk := h k (List.mem_cons_self k ks)
    have ih2 := ih (fun x hx => h x (List.mem_cons_of_mem k hx))
    rcases hk with hk | hk <;> simp [probeKeys, hk, ih2]

/-- A slash-containing key is not the registered `podIPs` index, so the
pod `ByIndex` call errors. -/
theorem byIndexPods_slash (st : List (String × PodObj)) (k ip : String)
    (hk : hasSlash k = true) : byIndexPods st k ip = Except.error () := by
  unfold byIndexPods
  rw [hasSlash_beq_false PodIPIndex (by decide) k hk]
  simp

/-- A slash-containing key is not the registered `clusterIPs` index, so
the service `ByIndex` call errors. -/
theorem byIndexSvcs_slash (st : List (String × SvcObj)) (k ip : String)
    (hk : hasSlash k = true) : byIndexSvcs st k ip = Except.error () := by
  unfold byIndexSvcs
  rw [hasSlash_beq_false SvcClusterIPIndex (by decide) k hk]
  simp

/-- When no stored pod carries the probed address, every pod `ByIndex`
call errors or comes back empty, whatever the index name. -/
theorem byIndexPods_miss (st : List (String × PodObj)) (k ip : String)
    (h : ∀ kv ∈ st, kv.2.podIPs.contains ip = false) :
    byIndexPods st k ip = Except.error () ∨ byIndexPods st k ip = Except.ok [] := by
  unfold byIndexPods
  by_cases hk : (k == PodIPIndex) = true
  · right
    rw [if_pos hk]
    have hf : st.filter (fun kv => kv.2.podIPs.contains ip) = [] :=
      List.filter_eq_nil_iff.mpr (fun kv hkv => by simpa using h kv hkv)
    rw [hf]
    rfl
  · left
    rw [if_neg hk]

/-- Service analogue of `byIndexPods_miss`. -/
theorem byIndexSvcs_miss (st : List (String × SvcObj)) (k ip : String)
    (h : ∀ kv ∈ st, kv.2.clusterIPs.contains ip = false) :
    byIndexSvcs st k ip = Except.error () ∨ byIndexSvcs st k ip = Except.ok [] := by
  unfold byIndexSvcs
  by_cases hk : (k == SvcClusterIPIndex) = true
  · right
    rw [if_pos hk]
    have hf : st.filter (fun kv => kv.2.clusterIPs.contains ip) = [] :=
      List.filter_eq_nil_iff.mpr (fun kv hkv => by simpa using h kv hkv)
    rw [hf]
    rfl
  · left
    rw [if_neg hk]

/-- On any state whose reverse-store keys all contain a slash (the shape
the meta-namespace key function produces for namespaced objects), the
reverse lookup reports not-found for every address. -/
theorem getObjectByIP_slashKeys (c : dnsController) (ip : String)
    (hp : ∀ k ∈ listKeys c.podStore, hasSlash k = true)
    (hs : ∀ k ∈ listKeys c.svcStore, hasSlash k = true) :
    getObjectByIP c ip = GoVal.ok (none, none, false) := by
  have h1 : probeKeys (fun k => byIndexPods c.podStore k ip) (listKeys c.podStore) = none :=
    probeKeys_none _ _ (fun k hk => Or.inl (byIndexPods_slash c.podStore k ip (hp k hk)))
  have h2 : probeKeys (fun k => byIndexSvcs c.svcStore k ip) (listKeys c.svcStore) = none :=
    probeKeys_none _ _ (fun k hk => Or.inl (byIndexSvcs_slash c.svcStore k ip (hs k hk)))
  unfold getObjectByIP
  rw [h1, h2]

/-- An address carried by no stored pod or service is reported not-found
by the reverse lookup, on any state whatsoever. -/
theorem getObjectByIP_notIndexed (c : dnsController) (ip : String)
    (hp : ∀ kv ∈ c.podStore, kv.2.podIPs.contains ip = false)
    (hs : ∀ kv ∈ c.svcStore, kv.2.clusterIPs.contains ip = false) :
    getObjectByIP c ip = GoVal.ok (none, none, false) := by
  have h1 : probeKeys (fun k => byIndexPods c.podStore k ip) (listKeys c.podStore) = none :=
    probeKeys_none _ _ (fun k _ => byIndexPods_miss c.podStore k ip hp)
  have h2 : probeKeys (fun k => byIndexSvcs c.svcStore k ip) (listKeys c.svcStore) = none :=
    probeKeys_none _ _ (fun k _ => byIndexSvcs_miss c.svcStore k ip hs)
  unfold getObjectByIP
  rw [h1, h2]

/-- When the source lookup misses, `TenantAuthorized` returns allow at
the first guard. -/
theorem TenantAuthorized_of_source_miss (c : dnsController) (fromIp toIp : String)
    (h : Capsule) (hm : getObjectByIP c fromIp = GoVal.ok (none, none, false)) :
    TenantAuthorized c fromIp toIp h = GoVal.ok true := by
  unfold TenantAuthorized
  rw [hm]
  rfl

/-- C1: on a synced cluster holding a tenant-a client pod and a tenant-b
service, with no whitelist selectors configured, `TenantAuthorized`
evaluated at the pod address and the service address returns allow — not
the deny the claim requires.  The reverse lookup passes each stored object
key to `ByIndex` as an index name, which always errors, so neither side
ever resolves. -/
theorem C1_cross_tenant_eval :
    TenantAuthorized crossTenantState "10.244.1.10" "10.96.0.50" noSelectors
      = GoVal.ok true := by
  decide

/-- C2: on every index state reachable from the event stream (reverse
store keys are meta-namespace keys, hence contain a slash; the namespace
store is empty because `Start` never runs the namespace informer),
`TenantAuthorized` returns allow for every address pair and configuration;
moreover `getNSByName` misses on every name, and the namespace informer is
not among the informers `Start` runs. -/
theorem C2_reachable_always_allow (c : dnsController) (fromIp toIp n : String)
    (h : Capsule)
    (hp : ∀ k ∈ listKeys c.podStore, hasSlash k = true)
    (hs : ∀ k ∈ listKeys c.svcStore, hasSlash k = true)
    (hns : c.nsStore = []) :
    TenantAuthorized c fromIp toIp h = GoVal.ok true
    ∧ getNSByName c n = (none, false)
    ∧ nsInformer ∉ StartRuns := by
  refine ⟨TenantAuthorized_of_source_miss c fromIp toIp h
    (getObjectByIP_slashKeys c fromIp hp hs), ?_, by decide⟩
  simp [getNSByName, byIndexNs, hns]

/-- Witness for C2 at a concrete synced state whose pod does carry the
probed source address. -/
theorem C2_witness :
    TenantAuthorized witnessState "10.244.1.10" "10.96.0.50" noSelectors = GoVal.ok true
    ∧ getNSByName witnessState "tenant-a-ns" = (none, false)
    ∧ nsInformer ∉ StartRuns :=
  C2_reachable_always_allow witnessState "10.244.1.10" "10.96.0.50" "tenant-a-ns"
    noSelectors (by decide) (by decide) rfl

/-- C3: the sync gate computed by `Start` reports ready as soon as the pod
and service informers have synced, even though the namespace informer
never completed (indeed is never run): the gate does not track the
namespace subscription, contradicting the claim. -/
theorem C3_sync_gate_eval :
    StartHasSynced (fun k => match k with
      | InformerKind.namespaces => false
      | _ => true) = true
    ∧ nsInformer ∉ StartRuns := by
  decide

/-- C4 counterexample: a destination that is a pod carrying labels matched
by the configured service-whitelist selector, across mismatched tenants,
is denied by the decision logic — the whitelist block applies only to
`*v1.Service` objects, so the claim's "any resource match, pod or service"
is false. -/
theorem C4_counterexample :
    tenantDecision (some nsA) false (some nsB) (some (AnyObj.pod exposedPod))
      false wlCfg = false := by
  decide

/-- C4 amended: when the destination lookup yields a Service and the
configured service-whitelist selector matches the service labels, the
decision is allow before the tenant comparison; a pod is never checked
against the service whitelist. -/
theorem C4_amended_service_only (nf nt : NsObj) (s : SvcObj) (p : PodObj)
    (h : Capsule) (sel : LabelSelector) (rs : List SelReq)
    (hsel : h.labelSelector = some sel)
    (hok : labelSelectorAsSelector sel = Except.ok rs)
    (hm : selMatches rs s.labels = true) :
    tenantDecision (some nf) false (some nt) (some (AnyObj.svc s)) false h = true
    ∧ svcWhitelistMatch (some (AnyObj.pod p)) h = false := by
  constructor
  · have hw : svcWhitelistMatch (some (AnyObj.svc s)) h = true := by
      simp [svcWhitelistMatch, hsel, hok, hm]
    cases hnf : nf.labels.lookup CapsuleTenantLabel with
    | none => simp [tenantDecision, hnf]
    | some tf => simp [tenantDecision, hnf, hw]
  · rfl

/-- Witness for the amended C4 at concrete values. -/
theorem C4_witness :
    tenantDecision (some nsA) false (some nsB) (some (AnyObj.svc exposedSvc))
      false wlCfg = true
    ∧ svcWhitelistMatch (some (AnyObj.pod exposedPod)) wlCfg = false :=
  C4_amended_service_only nsA nsB exposedSvc exposedPod wlCfg wlSelector
    [SelReq.mk "capsule.io/expose-dns" SelOp.selIn ["true"]] rfl rfl (by decide)

/-- C5: on a synced cluster holding a tenant-a client pod and a service in
a known namespace without the tenant label, with no whitelist configured,
`TenantAuthorized` returns allow — not the deny the claim requires — for
the same reason as C1: the reverse lookup never resolves any address. -/
theorem C5_untenanted_dest_eval :
    TenantAuthorized untenantedDestState "10.244.1.10" "10.96.0.60" noSelectors
      = GoVal.ok true := by
  decide

/-- C6: a source address carried by no stored pod or service makes
`TenantAuthorized` return allow regardless of destination, selectors and
the rest of the state; and in the decision logic an unresolved destination
(no namespace) likewise yields allow. -/
theorem C6_fail_open (c : dnsController) (fromIp toIp : String) (h : Capsule)
    (nsFrom : Option NsObj) (errFrom : Bool) (obj : Option AnyObj) (errTo : Bool)
    (hp : ∀ kv ∈ c.podStore, kv.2.podIPs.contains fromIp = false)
    (hs : ∀ kv ∈ c.svcStore, kv.2.clusterIPs.contains fromIp = false) :
    TenantAuthorized c fromIp toIp h = GoVal.ok true
    ∧ tenantDecision nsFrom errFrom none obj errTo h = true := by
  constructor
  · exact TenantAuthorized_of_source_miss c fromIp toIp h
      (getObjectByIP_notIndexed c fromIp hp hs)
  · cases errFrom with
    | true => simp [tenantDecision]
    | false =>
      cases nsFrom with
      | none => simp [tenantDecision]
      | some nf =>
        cases hnf : nf.labels.lookup CapsuleTenantLabel with
        | none => simp [tenantDecision, hnf]
        | some tf => cases errTo <;> simp [tenantDecision, hnf]

/-- Witness for C6 at a concrete state and an address stored nowhere. -/
theorem C6_witness :
    TenantAuthorized witnessState "10.9.9.9" "10.96.0.50" noSelectors = GoVal.ok true
    ∧ tenantDecision (some nsA) false none none false noSelectors = true :=
  C6_fail_open witnessState "10.9.9.9" "10.96.0.50" noSelectors (some nsA) false
    none false (by decide) (by decide)

/-- C7: on a zone-matching query with the sync gate not ready, `ServeDNS`
answers SERVFAIL and never invokes `TenantAuthorized`. -/
theorem C7_unsynced_servfail (e : ServeEnv)
    (hz : e.zoneMatches = true) (hs : e.hasSynced = false) :
    ServeDNS e = ServeResult.mk (Outcome.backendError RcodeServerFailure) none := by
  simp [ServeDNS, hz, hs]

/-- Witness for C7. -/
theorem C7_witness :
    ServeDNS envUnsynced = ServeResult.mk (Outcome.backendError RcodeServerFailure) none :=
  C7_unsynced_servfail envUnsynced rfl rfl

/-- C8: on a zone-matching query with the gate ready and a resolved
destination, a deny decision is answered through `BackendError` with the
success rcode (an answerless NOERROR response), which is distinct from the
server-failure rcode. -/
theorem C8_deny_noerror (e : ServeEnv) (d : String)
    (hz : e.zoneMatches = true) (hs : e.hasSynced = true)
    (hd : GetDestIp e e.sourceIp = Except.ok d)
    (ha : e.authorized e.sourceIp d = false) :
    ServeDNS e = ServeResult.mk (Outcome.backendError RcodeSuccess) (some (e.sourceIp, d))
    ∧ RcodeSuccess ≠ RcodeServerFailure := by
  constructor
  · simp [ServeDNS, hz, hs, hd, ha]
  · decide

/-- Witness for C8. -/
theorem C8_witness :
    ServeDNS envDeny
      = ServeResult.mk (Outcome.backendError RcodeSuccess) (some ("10.244.1.10", "10.244.1.10"))
    ∧ RcodeSuccess ≠ RcodeServerFailure :=
  C8_deny_noerror envDeny "10.244.1.10" rfl rfl rfl rfl

/-- C9: on a zone-matching query with the gate ready, when the kubernetes
record lookup errors or yields no record for the queried type, `ServeDNS`
falls through to the next handler and `TenantAuthorized` is not invoked. -/
theorem C9_resolver_fail_fallthrough (e : ServeEnv)
    (hz : e.zoneMatches = true) (hs : e.hasSynced = true)
    (hfail : (e.qtype = TypeA ∧ (e.aRecords = Except.error () ∨ e.aRecords = Except.ok []))
      ∨ (e.qtype = TypeAAAA
        ∧ (e.aaaaRecords = Except.error () ∨ e.aaaaRecords = Except.ok []))) :
    ServeDNS e = ServeResult.mk Outcome.nextHandler none := by
  have hAA : (TypeA == TypeA) = true := by decide
  have hA4 : (TypeAAAA == TypeA) = false := by decide
  have h44 : (TypeAAAA == TypeAAAA) = true := by decide
  have hd : GetDestIp e e.sourceIp = Except.error () := by
    rcases hfail with ⟨hq, hr | hr⟩ | ⟨hq, hr | hr⟩ <;>
      simp [GetDestIp, hq, hr, hAA, hA4, h44]
  simp [ServeDNS, hz, hs, hd]

/-- Witness for C9. -/
theorem C9_witness :
    ServeDNS envResolverFail = ServeResult.mk Outcome.nextHandler none :=
  C9_resolver_fail_fallthrough envResolverFail rfl rfl (Or.inl ⟨rfl, Or.inl rfl⟩)

/-- C10: for a query type that is neither A nor AAAA, `GetDestIp` returns
its `destIp` argument unchanged, and since `ServeDNS` initialises that
argument to the querier source address, `TenantAuthorized` is invoked with
destination equal to source. -/
theorem C10_other_qtype_self_compare (e : ServeEnv) (d : String)
    (hz : e.zoneMatches = true) (hs : e.hasSynced = true)
    (hq1 : e.qtype ≠ TypeA) (hq2 : e.qtype ≠ TypeAAAA) :
    GetDestIp e d = Except.ok d
    ∧ (ServeDNS e).authCall = some (e.sourceIp, e.sourceIp) := by
  have hb1 : (e.qtype == TypeA) = false := beq_eq_false_iff_ne.mpr hq1
  have hb2 : (e.qtype == TypeAAAA) = false := beq_eq_false_iff_ne.mpr hq2
  have hget : ∀ x : String, GetDestIp e x = Except.ok x := fun x => by
    simp [GetDestIp, hb1, hb2]
  refine ⟨hget d, ?_⟩
  cases hA : e.authorized e.sourceIp e.sourceIp <;>
    simp [ServeDNS, hz, hs, hget e.sourceIp, hA]

/-- Witness for C10. -/
theorem C10_witness :
    GetDestIp envDeny "10.96.0.99" = Except.ok "10.96.0.99"
    ∧ (ServeDNS envDeny).authCall = some ("10.244.1.10", "10.244.1.10") :=
  C10_other_qtype_self_compare envDeny "10.96.0.99" rfl rfl (by decide) (by decide)

end CapsuleDns
